import Mathlib

/-!
Verification of the conversation-session and statistics-extraction engine of
`src/utils.py` (class `Chatbot`) against its natural-language specification.

Modelling conventions:
* Python strings are Lean `String`s (sequences of Unicode scalar values, so
  `String.length` is Python's codepoint `len`).  The Python text helpers used by
  the code — `str.lower()`, `str.split()` with no argument, the regex character
  classes `\w` and `\s`, `list.index`, `" ".join` — are embedded below for ASCII
  text, which is all the claims exercise.
* Fallible Python code (expressions that can raise) returns `Except PyError`.
* The remote generation backend is out of scope and is passed in as a function
  from the full message history to the reply text.
-/

namespace ChatApp

/-- Role tag of a chat message: the "role" field of the message dicts built in
utils.py ("system", "user", "assistant"). -/
inductive Role where
  | system
  | user
  | assistant
deriving DecidableEq

/-- One entry of the message history: a role-tagged content string, as the
dicts appended to `self.messages` in utils.py. -/
structure Message where
  role : Role
  content : String
deriving DecidableEq

/-- Exceptions the embedded code can raise.  `valueError` is Python's
`ValueError` (from `list.index`), `indexError` is `IndexError` (from an
out-of-range subscript).  `sessionClosed` is the specification's
`SessionClosedError`; it appears in the error type so that claims about it can
be stated, but no code path of the repository ever produces it. -/
inductive PyError where
  | valueError
  | indexError
  | sessionClosed
deriving DecidableEq

/-- Decidable equality for `Except`, so closed facts about the fallible
embedded functions can be settled by `decide`. -/
instance {ε α : Type} [DecidableEq ε] [DecidableEq α] : DecidableEq (Except ε α) := fun
  | .ok a, .ok b =>
    match decEq a b with
    | isTrue h => isTrue (by rw [h])
    | isFalse h => isFalse (by intro hh; cases hh; exact h rfl)
  | .ok _, .error _ => isFalse (by intro h; cases h)
  | .error _, .ok _ => isFalse (by intro h; cases h)
  | .error e, .error f =>
    match decEq e f with
    | isTrue h => isTrue (by rw [h])
    | isFalse h => isFalse (by intro hh; cases hh; exact h rfl)

/-- Models Python `str.lower()` for ASCII text. -/
def pyLower (s : String) : String :=
  String.mk (s.data.map Char.toLower)

/-- Does the needle match at the head of the haystack?  Helper of `hasSub`. -/
def matchesAt : List Char → List Char → Bool
  | [], _ => true
  | _ :: _, [] => false
  | a :: as, b :: bs => a == b && matchesAt as bs

/-- Does the needle occur as a contiguous run inside the haystack? -/
def hasSub (needle : List Char) : List Char → Bool
  | [] => matchesAt needle []
  | c :: cs => matchesAt needle (c :: cs) || hasSub needle cs

/-- Models the Python substring test `needle in hay`. -/
def strContains (hay needle : String) : Bool :=
  hasSub needle.data hay.data

/-- Helper of `pySplit`: the first argument is the token accumulated so far,
in reverse. -/
def pySplitAux (acc : List Char) : List Char → List String
  | [] => if acc.isEmpty then [] else [String.mk acc.reverse]
  | c :: cs =>
    if c.isWhitespace then
      if acc.isEmpty then pySplitAux [] cs
      else String.mk acc.reverse :: pySplitAux [] cs
    else pySplitAux (c :: acc) cs

/-- Models Python `str.split()` with no argument: split on runs of whitespace,
producing no empty tokens. -/
def pySplit (s : String) : List String :=
  pySplitAux [] s.data

/-- Characters kept by `re.sub(r"[^\w\s]", "", ·)` in utils.py: word
characters (alphanumeric or underscore) and whitespace, modelled for ASCII. -/
def isWordOrSpace (c : Char) : Bool :=
  c.isAlphanum || c == '_' || c.isWhitespace

/-- Models `re.sub(r"[^\w\s]", "", s)` (utils.py lines 176 and 256). -/
def stripPunct (s : String) : String :=
  String.mk (s.data.filter isWordOrSpace)

/-- Models `re.sub(r"\n", " ", s)` (utils.py line 174). -/
def replaceNewlines (s : String) : String :=
  String.mk (s.data.map (fun c => if c == '\n' then ' ' else c))

/-- Models Python `list.index(a)`: index of the first occurrence, `none` where
Python raises `ValueError` (the element is absent). -/
def listIndex [DecidableEq α] (a : α) : List α → Option Nat
  | [] => none
  | b :: bs => if b = a then some 0 else (listIndex a bs).map (· + 1)

/-- Models Python `" ".join(l)`. -/
def joinSpace : List String → String
  | [] => ""
  | [w] => w
  | w :: ws => w ++ " " ++ joinSpace ws

/-- The persistent fields of a `utils.Chatbot` instance: constructor arguments
plus the message log `self.messages`. -/
structure Chatbot where
  name : String
  personality : String
  start_prompt : String
  store_conversation : Bool
  exit_cue : String
  goodbye : String
  messages : List Message
deriving DecidableEq

/-- Embeds `Chatbot.filter_prior_chat` (utils.py 67-90): drop every
system-role message from the prior history, then append one system message
holding `self.personality` (passed here as the first argument). -/
def filter_prior_chat (personality : String) (prior_messages : List Message) : List Message :=
  (prior_messages.filter (fun m => m.role ≠ Role.system)) ++
    [{ role := Role.system, content := personality }]

/-- Embeds `Chatbot.extract_user_name` (utils.py 195-219).  For each message
whose lowercased form contains "my name is", the code runs
`words.index("name") + 2` — raising `ValueError` when the token "name" is
absent — and takes the word at that index when it is in range, stopping the
scan; otherwise the loop continues.  The default result is "UNKNOWN". -/
def extract_user_name : List String → Except PyError String
  | [] => .ok "UNKNOWN"
  | message :: rest =>
    if strContains (pyLower message) "my name is" then
      let words := pySplit message
      match listIndex "name" words with
      | none => .error .valueError
      | some i =>
        let index_of_name := i + 2
        if index_of_name < words.length then .ok (words.getD index_of_name "")
        else extract_user_name rest
    else extract_user_name rest

/-- The `stop_words` list of `Chatbot.extract_conversation_topic`
(utils.py 231-253); `self.name` is one of the entries. -/
def stop_words (name : String) : List String :=
  ["I", "i", "Hi", "Hello", "hi", "hello", name, "want", "would", "more", "to",
   "chat", "discuss", "about", "ask", "you", "Id", "like", "please", "talk", "know"]

/-- Embeds `Chatbot.extract_conversation_topic` (utils.py 221-265): split the
first user message on whitespace, strip punctuation per token, drop stop
words, and join with single spaces; "UNKNOWN" when nothing survives.
`user_messages[0]` raises `IndexError` on an empty list. -/
def extract_conversation_topic (name : String) (user_messages : List String) :
    Except PyError String :=
  match user_messages with
  | [] => .error .indexError
  | first :: _ =>
    let subject := pySplit first
    let subject := subject.map stripPunct
    let subject := subject.filter (fun w => w ∉ stop_words name)
    if subject.length > 0 then .ok (joinSpace subject) else .ok "UNKNOWN"

/-- The statistics dictionary returned by
`Chatbot.get_conversation_statistics` (utils.py 184-193). -/
structure ConversationStatistics where
  bot_name : String
  user_char_count : Nat
  bot_word_count : Nat
  subject : String
  user_name : String
  messages : List Message
deriving DecidableEq

/-- The user-message list built at utils.py 151-155: the user-role contents of
the log, with `self.exit_cue` appended to a fresh local list. -/
def sessionUserMessages (c : Chatbot) : List String :=
  ((c.messages.filter (fun m => m.role = Role.user)).map (fun m => m.content)) ++
    [c.exit_cue]

/-- The bot-message list built at utils.py 163-170: the assistant-role
contents of the log, with `self.start_prompt` prepended and `self.goodbye`
appended to a fresh local list. -/
def sessionBotMessages (c : Chatbot) : List String :=
  [c.start_prompt] ++
    ((c.messages.filter (fun m => m.role = Role.assistant)).map (fun m => m.content)) ++
    [c.goodbye]

/-- Embeds `Chatbot.get_conversation_statistics` (utils.py 144-193).  Topic
and name extraction run first and may raise; the word and character counts are
computed over the local lists; the stored "Messages" field is `self.messages`
itself. -/
def get_conversation_statistics (c : Chatbot) : Except PyError ConversationStatistics := do
  let subject ← extract_conversation_topic c.name (sessionUserMessages c)
  let user_name ← extract_user_name (sessionUserMessages c)
  .ok { bot_name := c.name,
        user_char_count := ((sessionUserMessages c).map String.length).sum,
        bot_word_count :=
          ((((sessionBotMessages c).map replaceNewlines).map stripPunct).map pySplit).flatten.length,
        subject := subject,
        user_name := user_name,
        messages := c.messages }

/-- Embeds `Chatbot.generate_response` (utils.py 92-116): append the user
input as a user message, obtain the backend reply for the full history, append
it as an assistant message, and return the name-prefixed reply.  The remote
backend is the function parameter. -/
def generate_response (backend : List Message → String) (c : Chatbot)
    (user_input : String) : Chatbot × String :=
  let messages := c.messages ++ [{ role := Role.user, content := user_input }]
  let chatbot_reply := backend messages
  let messages := messages ++ [{ role := Role.assistant, content := chatbot_reply }]
  ({ c with messages := messages }, c.name ++ ": " ++ chatbot_reply)

/-- Session state for the `run_chat` loop: the chatbot together with whether
the exit cue has been received (the specification's CLOSED state). -/
structure Session where
  chatbot : Chatbot
  closed : Bool
deriving DecidableEq

/-- Embeds the `run_chat` loop (utils.py 118-142) over a finite script of
console inputs.  On the exit cue the loop breaks — collecting statistics first
when `store_conversation` is set, so a statistics exception propagates —
otherwise it takes a turn and continues.  A script that runs out leaves the
session open (the real loop would block on `input()`). -/
def run_chat (backend : List Message → String) : Chatbot → List String → Except PyError Session
  | c, [] => .ok { chatbot := c, closed := false }
  | c, user_input :: rest =>
    if user_input = c.exit_cue then
      if c.store_conversation then do
        let _ ← get_conversation_statistics c
        .ok { chatbot := c, closed := true }
      else .ok { chatbot := c, closed := true }
    else run_chat backend (generate_response backend c user_input).1 rest

/-- The specification's `advance` operation on a session, as the code realises
it: `Chatbot.generate_response` performs no closed-state check, so the call
always succeeds (the backend parameter always answers). -/
def advance (backend : List Message → String) (s : Session) (user_input : String) :
    Except PyError (Session × String) :=
  let (c, reply) := generate_response backend s.chatbot user_input
  .ok ({ s with chatbot := c }, reply)

/-- Claim C1's name-extraction rule exactly as the specification words it:
for the first message whose lowercased form contains "my name is", anchor on
the first case-sensitive occurrence of the token "is" and return the token
immediately following it; "UNKNOWN" when no message matches or no token
follows.  Written only to be compared with `extract_user_name`. -/
def nameExtractorClaim : List String → String
  | [] => "UNKNOWN"
  | message :: _rest =>
    if strContains (pyLower message) "my name is" then
      match listIndex "is" (pySplit message) with
      | some i =>
        if h : i + 1 < (pySplit message).length then (pySplit message).get ⟨i + 1, h⟩
        else "UNKNOWN"
      | none => "UNKNOWN"
    else nameExtractorClaim _rest

/-- Token two positions after the first case-sensitive occurrence of "name",
when the word list has one. -/
def nameFromWords (words : List String) : Option String :=
  match listIndex "name" words with
  | some i => if h : i + 2 < words.length then some (words.get ⟨i + 2, h⟩) else none
  | none => none

/-- First result of `f` over the list, skipping entries on which `f` gives
`none`. -/
def firstSome (f : α → Option β) : List α → Option β
  | [] => none
  | a :: as =>
    match f a with
    | some b => some b
    | none => firstSome f as

/-- Claim C1 as amended: scan for the first message that both contains
"my name is" (lowercased) and yields a token two positions after its first
"name" token; "UNKNOWN" when no message yields one. -/
def nameExtractorAmendedSpec (msgs : List String) : String :=
  match firstSome
      (fun m => if strContains (pyLower m) "my name is" then nameFromWords (pySplit m) else none)
      msgs with
  | some n => n
  | none => "UNKNOWN"

/-- The strip rule exactly as claims C5 and C6 word it: remove every character
that is not alphanumeric or whitespace (so underscores are removed, unlike the
code's `\w` class).  Written only to be compared with `stripPunct`. -/
def stripNonAlphanum (s : String) : String :=
  String.mk (s.data.filter (fun c => c.isAlphanum || c.isWhitespace))

/-- Claim C5's topic rule exactly as worded: per-token
alphanumeric-or-whitespace strip, then the stop-word drop, then the join. -/
def topicExtractorClaim (name first : String) : String :=
  let toks := ((pySplit first).map stripNonAlphanum).filter (fun w => w ∉ stop_words name)
  if toks.length > 0 then joinSpace toks else "UNKNOWN"

/-- Claim C5 as amended: the per-token strip keeps word characters —
alphanumeric or underscore — and whitespace. -/
def topicExtractorAmendedSpec (name first : String) : String :=
  let kept := (pySplit first).map
    (fun t => String.mk (t.data.filter (fun c => c.isAlpha || c.isDigit || c == '_' || c.isWhitespace)))
  let toks := kept.filter (fun w => w ∉ stop_words name)
  if toks = [] then "UNKNOWN" else joinSpace toks

/-- Claim C6's bot-word count exactly as worded: per entry of the bot-message
list, replace newlines, strip every non-alphanumeric non-whitespace character,
split on whitespace, and sum the token counts. -/
def botWordCountClaim (c : Chatbot) : Nat :=
  ((sessionBotMessages c).map
    (fun e => (pySplit (stripNonAlphanum (replaceNewlines e))).length)).sum

/-- Claim C6 as amended: the same per-entry token-count sum, with the strip
keeping word characters (alphanumeric or underscore). -/
def botWordCountAmendedSpec (c : Chatbot) : Nat :=
  ((sessionBotMessages c).map
    (fun e => (pySplit (stripPunct (replaceNewlines e))).length)).sum

/-- Small concrete chatbot for evaluating the theorems: the Henry persona of
run.py, a session holding one assistant reply and no user message. -/
def wBot : Chatbot :=
  { name := "Henry", personality := "p", start_prompt := "",
    store_conversation := true, exit_cue := "EXIT", goodbye := "",
    messages := [{ role := Role.system, content := "p" },
                 { role := Role.assistant, content := "Hi!\nHow are you?" }] }

/-- The statistics record `get_conversation_statistics` returns on `wBot`. -/
def wStats : ConversationStatistics :=
  { bot_name := "Henry", user_char_count := 4, bot_word_count := 4,
    subject := "EXIT", user_name := "UNKNOWN", messages := wBot.messages }

/-- Concrete chatbot whose only assistant message contains an underscore
token, separating the code's `\w` strip from claim C6's alphanumeric strip. -/
def uBot : Chatbot :=
  { name := "Henry", personality := "p", start_prompt := "",
    store_conversation := true, exit_cue := "EXIT", goodbye := "",
    messages := [{ role := Role.assistant, content := "a _ b" }] }

/-- Concrete chatbot whose persona name equals the default exit cue, so the
cue is filtered out as a stop word during topic extraction. -/
def exitBot : Chatbot :=
  { name := "EXIT", personality := "p", start_prompt := "",
    store_conversation := true, exit_cue := "EXIT", goodbye := "",
    messages := [{ role := Role.system, content := "p" }] }

/-- Membership gives an index for `listIndex`. -/
theorem listIndex_of_mem [DecidableEq α] {a : α} {l : List α} (h : a ∈ l) :
    ∃ i, listIndex a l = some i := by
  induction l with
  | nil => cases h
  | cons b bs ih =>
    by_cases hb : b = a
    · exact ⟨0, by simp [listIndex, hb]⟩
    · rcases List.mem_cons.mp h with h1 | h2
      · exact absurd h1.symm hb
      · obtain ⟨i, hi⟩ := ih h2
        exact ⟨i + 1, by simp [listIndex, hb, hi]⟩

/-- Absence makes `listIndex` fail, which is where Python's `list.index`
raises `ValueError`. -/
theorem listIndex_eq_none [DecidableEq α] {a : α} {l : List α} (h : a ∉ l) :
    listIndex a l = none := by
  induction l with
  | nil => rfl
  | cons b bs ih =>
    have hb : ¬ b = a := fun hh => h (hh ▸ List.mem_cons_self b bs)
    have hbs : a ∉ bs := fun hm => h (List.mem_cons_of_mem b hm)
    simp [listIndex, hb, ih hbs]

/-- In-range `getD` is `get`. -/
theorem getD_eq_get {l : List α} {i : Nat} (h : i < l.length) (d : α) :
    l.getD i d = l.get ⟨i, h⟩ := by
  simp [List.getD_eq_getElem?_getD, List.getElem?_eq_getElem h]

/-- Claim C3: `filter_prior_chat` removes every system-role entry, keeps the
relative order of the non-system messages, and appends exactly one new system
message carrying the new text at the tail, so the result has exactly one
system message and it is last. -/
theorem c3_replace_system (t : String) (l : List Message) :
    (filter_prior_chat t l).filter (fun m => m.role = Role.system) =
      [{ role := Role.system, content := t }] ∧
    (filter_prior_chat t l).getLast? = some { role := Role.system, content := t } ∧
    (filter_prior_chat t l).filter (fun m => m.role ≠ Role.system) =
      l.filter (fun m => m.role ≠ Role.system) := by
  unfold filter_prior_chat
  refine ⟨?_, ?_, ?_⟩
  · rw [List.filter_append, List.filter_filter]
    simp
  · exact List.getLast?_concat _
  · rw [List.filter_append, List.filter_filter]
    simp

/-- Claim C4: `filter_prior_chat` is idempotent — applying it twice with the
same text yields the same log as applying it once. -/
theorem c4_replace_system_idempotent (t : String) (l : List Message) :
    filter_prior_chat t (filter_prior_chat t l) = filter_prior_chat t l := by
  unfold filter_prior_chat
  rw [List.filter_append, List.filter_filter]
  simp

/-- Equation of `firstSome` on a cons cell. -/
theorem firstSome_cons (f : α → Option β) (a : α) (as : List α) :
    firstSome f (a :: as) =
      match f a with
      | some b => some b
      | none => firstSome f as := rfl

/-- Helper for claim C1: on message lists where every phrase-matching message
contains the token "name" (so no `ValueError` fires), the code's extraction
agrees with the amended rule. -/
theorem extract_user_name_agrees (msgs : List String) :
    (∀ m ∈ msgs, strContains (pyLower m) "my name is" = true → "name" ∈ pySplit m) →
    extract_user_name msgs = .ok (nameExtractorAmendedSpec msgs) := by
  induction msgs with
  | nil => intro _; rfl
  | cons m rest ih =>
    intro h
    have hrest : ∀ m' ∈ rest, strContains (pyLower m') "my name is" = true → "name" ∈ pySplit m' :=
      fun m' hm' => h m' (List.mem_cons_of_mem m hm')
    by_cases hc : strContains (pyLower m) "my name is" = true
    · obtain ⟨i, hi⟩ := listIndex_of_mem (h m (List.mem_cons_self m rest) hc)
      by_cases hlt : i + 2 < (pySplit m).length
      · have hlhs : extract_user_name (m :: rest) = .ok ((pySplit m).getD (i + 2) "") := by
          simp [extract_user_name, hc, hi, hlt]
        have hnf : nameFromWords (pySplit m) = some ((pySplit m).get ⟨i + 2, hlt⟩) := by
          simp [nameFromWords, hi, hlt]
        have hrhs : nameExtractorAmendedSpec (m :: rest) = (pySplit m).get ⟨i + 2, hlt⟩ := by
          simp [nameExtractorAmendedSpec, firstSome_cons, hc, hnf]
        rw [hlhs, hrhs, getD_eq_get hlt]
      · have hlhs : extract_user_name (m :: rest) = extract_user_name rest := by
          simp [extract_user_name, hc, hi, hlt]
        have hnf : nameFromWords (pySplit m) = none := by
          simp [nameFromWords, hi, hlt]
        have hrhs : nameExtractorAmendedSpec (m :: rest) = nameExtractorAmendedSpec rest := by
          simp [nameExtractorAmendedSpec, firstSome_cons, hc, hnf]
        rw [hlhs, hrhs]
        exact ih hrest
    · have hlhs : extract_user_name (m :: rest) = extract_user_name rest := by
        simp [extract_user_name, hc]
      have hrhs : nameExtractorAmendedSpec (m :: rest) = nameExtractorAmendedSpec rest := by
        simp [nameExtractorAmendedSpec, firstSome_cons, hc]
      rw [hlhs, hrhs]
      exact ih hrest

/-- Claim C1 (amended): on every list of user messages in which each message
containing "my name is" (lowercased) also has the token "name" in its
whitespace split, the extractor scans in order and returns, for the first
message yielding a token two positions after its first case-sensitive "name"
token, that token; otherwise "UNKNOWN".  The claim's three examples hold. -/
theorem c1_name_extraction (msgs : List String)
    (h : ∀ m ∈ msgs, strContains (pyLower m) "my name is" = true → "name" ∈ pySplit m) :
    extract_user_name msgs = .ok (nameExtractorAmendedSpec msgs) ∧
    extract_user_name ["My name is Alice"] = .ok "Alice" ∧
    extract_user_name ["my name is"] = .ok "UNKNOWN" ∧
    extract_user_name ["hello there"] = .ok "UNKNOWN" :=
  ⟨extract_user_name_agrees msgs h, by decide, by decide, by decide⟩

/-- Claim C1 fails as stated: on ["is my name is Alice"] the rule worded in
the specification (first case-sensitive token "is", then the following token)
yields "my", while the code returns "Alice". -/
theorem c1_counterexample :
    extract_user_name ["is my name is Alice"] = .ok "Alice" ∧
    nameExtractorClaim ["is my name is Alice"] = "my" ∧
    ("Alice" : String) ≠ "my" :=
  ⟨by decide, by decide, by decide⟩

/-- Witness for claim C1's theorem at a concrete message list. -/
theorem c1_witness :
    (∀ m ∈ (["hello", "My name is Alice"] : List String),
        strContains (pyLower m) "my name is" = true → "name" ∈ pySplit m) ∧
    (extract_user_name ["hello", "My name is Alice"] =
        .ok (nameExtractorAmendedSpec ["hello", "My name is Alice"]) ∧
      extract_user_name ["My name is Alice"] = .ok "Alice" ∧
      extract_user_name ["my name is"] = .ok "UNKNOWN" ∧
      extract_user_name ["hello there"] = .ok "UNKNOWN") :=
  ⟨by decide, c1_name_extraction ["hello", "My name is Alice"] (by decide)⟩

/-- Claim C9 (amended): the extractor fails with `ValueError` whenever the
first message whose lowercased form contains "my name is" lacks the exact
token "name" in its whitespace split. -/
theorem c9_nameindex_crash (pre : List String) (m : String) (rest : List String)
    (hpre : ∀ p ∈ pre, strContains (pyLower p) "my name is" = false)
    (hm : strContains (pyLower m) "my name is" = true)
    (hname : "name" ∉ pySplit m) :
    extract_user_name (pre ++ m :: rest) = .error .valueError := by
  induction pre with
  | nil =>
    simp only [List.nil_append]
    simp [extract_user_name, hm, listIndex_eq_none hname]
  | cons p ps ih =>
    have hp := hpre p (List.mem_cons_self p ps)
    have hps : ∀ q ∈ ps, strContains (pyLower q) "my name is" = false :=
      fun q hq => hpre q (List.mem_cons_of_mem p hq)
    simp only [List.cons_append]
    rw [show extract_user_name (p :: (ps ++ m :: rest)) = extract_user_name (ps ++ m :: rest) from by
      simp [extract_user_name, hp]]
    exact ih hps

/-- Claim C9's "whenever" is too strong as stated: in
["my name is Bob", "My Name is Alice"] the second message satisfies the
claimed crash condition, yet the scan already stopped at "Bob" and no
exception is raised. -/
theorem c9_counterexample :
    strContains (pyLower "My Name is Alice") "my name is" = true ∧
    ("name" ∉ pySplit "My Name is Alice") ∧
    extract_user_name ["my name is Bob", "My Name is Alice"] = .ok "Bob" :=
  ⟨by decide, by decide, by decide⟩

/-- Witness for claim C9's theorem at the claim's example message. -/
theorem c9_witness :
    (∀ p ∈ (["hello"] : List String), strContains (pyLower p) "my name is" = false) ∧
    strContains (pyLower "My Name is Alice") "my name is" = true ∧
    ("name" ∉ pySplit "My Name is Alice") ∧
    extract_user_name (["hello"] ++ "My Name is Alice" :: []) = .error .valueError :=
  ⟨by decide, by decide, by decide,
    c9_nameindex_crash ["hello"] "My Name is Alice" [] (by decide) (by decide) (by decide)⟩

/-- What a successful `get_conversation_statistics` returns: the field values
of the statistics record, and that both extractors succeeded on the
user-message list. -/
theorem get_stats_spec (c : Chatbot) (s : ConversationStatistics)
    (h : get_conversation_statistics c = .ok s) :
    s.bot_name = c.name ∧
    s.user_char_count = ((sessionUserMessages c).map String.length).sum ∧
    s.bot_word_count =
      ((((sessionBotMessages c).map replaceNewlines).map stripPunct).map pySplit).flatten.length ∧
    s.messages = c.messages ∧
    extract_conversation_topic c.name (sessionUserMessages c) = .ok s.subject ∧
    extract_user_name (sessionUserMessages c) = .ok s.user_name := by
  unfold get_conversation_statistics at h
  cases ht : extract_conversation_topic c.name (sessionUserMessages c) with
  | error e => rw [ht] at h; simp [Bind.bind, Except.bind] at h
  | ok subj =>
    rw [ht] at h
    cases hn : extract_user_name (sessionUserMessages c) with
    | error e => rw [hn] at h; simp [Bind.bind, Except.bind] at h
    | ok un =>
      rw [hn] at h
      simp only [Bind.bind, Except.bind, Except.ok.injEq] at h
      subst h
      exact ⟨rfl, rfl, rfl, rfl, rfl, rfl⟩

/-- Claim C7: `user_char_count` is the sum of the codepoint lengths of the
user-role message contents plus the length of the exit cue, and the stored
message log never contains the synthetic exit entry. -/
theorem c7_user_char_count (c : Chatbot) (s : ConversationStatistics)
    (h : get_conversation_statistics c = .ok s) :
    s.user_char_count =
      ((c.messages.filter (fun m => m.role = Role.user)).map (fun m => m.content.length)).sum
        + c.exit_cue.length ∧
    s.messages = c.messages := by
  obtain ⟨-, hcc, -, hm, -, -⟩ := get_stats_spec c s h
  refine ⟨?_, hm⟩
  rw [hcc, sessionUserMessages]
  simp [List.map_append, List.sum_append, List.map_map, Function.comp_def]

/-- Witness for claim C7's theorem at the concrete chatbot `wBot`. -/
theorem c7_witness :
    get_conversation_statistics wBot = .ok wStats ∧
    (wStats.user_char_count =
        ((wBot.messages.filter (fun m => m.role = Role.user)).map
          (fun m => m.content.length)).sum + wBot.exit_cue.length ∧
      wStats.messages = wBot.messages) :=
  ⟨by decide, c7_user_char_count wBot wStats (by decide)⟩

/-- Claim C8: building the session summary is read-only with respect to the
message log — running the exit path of the chat loop, which collects the
statistics, leaves the session's message log exactly as it was. -/
theorem c8_stats_readonly (backend : List Message → String) (c : Chatbot)
    (rest : List String) (s : Session)
    (hstore : c.store_conversation = true)
    (h : run_chat backend c (c.exit_cue :: rest) = .ok s) :
    s.chatbot.messages = c.messages ∧ s.closed = true := by
  rw [run_chat, if_pos rfl, hstore] at h
  simp only [if_true] at h
  cases hg : get_conversation_statistics c with
  | error e => rw [hg] at h; simp [Bind.bind, Except.bind] at h
  | ok st =>
    rw [hg] at h
    simp only [Bind.bind, Except.bind, Except.ok.injEq] at h
    subst h
    exact ⟨rfl, rfl⟩

/-- Witness for claim C8's theorem at the concrete chatbot `wBot`. -/
theorem c8_witness :
    wBot.store_conversation = true ∧
    run_chat (fun _ => "r") wBot (wBot.exit_cue :: []) = .ok { chatbot := wBot, closed := true } ∧
    ({ chatbot := wBot, closed := true } : Session).chatbot.messages = wBot.messages :=
  ⟨rfl, by decide, (c8_stats_readonly (fun _ => "r") wBot [] _ rfl (by decide)).1⟩

/-- Claim C2 (amended): once the received input equals the exit cue the turn
loop terminates and consumes no further input — its result does not depend on
the rest of the script — but no `SessionClosedError` exists in the code: the
turn operation has no closed-state check and succeeds on a closed session. -/
theorem c2_closed_loop :
    (∀ (backend : List Message → String) (c : Chatbot) (rest : List String),
        run_chat backend c (c.exit_cue :: rest) = run_chat backend c [c.exit_cue]) ∧
    (∀ (backend : List Message → String) (s : Session) (input : String),
        s.closed = true → (advance backend s input).isOk = true) := by
  constructor
  · intro backend c rest
    rw [run_chat, run_chat, if_pos rfl, if_pos rfl]
  · intro backend s input _
    rfl

/-- Claim C2 fails as stated: a session that has reached the closed state
still accepts a turn — `generate_response` succeeds rather than failing with
the specification's `SessionClosedError`. -/
theorem c2_counterexample :
    run_chat (fun _ => "joke") wBot ["EXIT"] = .ok { chatbot := wBot, closed := true } ∧
    (advance (fun _ => "joke") { chatbot := wBot, closed := true } "hello").isOk = true ∧
    advance (fun _ => "joke") { chatbot := wBot, closed := true } "hello" ≠ .error .sessionClosed :=
  ⟨by decide, by decide, by decide⟩

/-- Witness for claim C2's theorem at a concrete closed session. -/
theorem c2_witness :
    run_chat (fun _ => "reply") wBot (wBot.exit_cue :: ["more"]) =
      run_chat (fun _ => "reply") wBot [wBot.exit_cue] ∧
    ({ chatbot := wBot, closed := true } : Session).closed = true ∧
    (advance (fun _ => "reply") { chatbot := wBot, closed := true } "again").isOk = true :=
  ⟨c2_closed_loop.1 (fun _ => "reply") wBot ["more"], rfl,
    c2_closed_loop.2 (fun _ => "reply") { chatbot := wBot, closed := true } "again" rfl⟩

/-- The amended strip character class — alphabetic, digit, underscore or
whitespace — is exactly the code's `\w`-or-`\s` class. -/
theorem strip_chars_eq (t : String) :
    String.mk (t.data.filter (fun c => c.isAlpha || c.isDigit || c == '_' || c.isWhitespace)) =
      stripPunct t := by
  simp only [stripPunct]
  congr 1

/-- Claim C5 (amended): topic extraction splits the first user message on
whitespace, strips from each token every character that is not a word
character (alphanumeric or underscore) or whitespace, drops the stop words
(the persona's name among them), and joins the survivors with single spaces,
with "UNKNOWN" when none survive; the claim's two examples hold. -/
theorem c5_topic_extraction (name first : String) (rest : List String) :
    extract_conversation_topic name (first :: rest) = .ok (topicExtractorAmendedSpec name first) ∧
    extract_conversation_topic "Henry" ["Hi Henry I would like to discuss gardening tips please"] =
      .ok "gardening tips" ∧
    extract_conversation_topic name ["hello hi you know"] = .ok "UNKNOWN" := by
  refine ⟨?_, by decide, ?_⟩
  · simp only [extract_conversation_topic, topicExtractorAmendedSpec, strip_chars_eq]
    cases hfil : ((pySplit first).map stripPunct).filter (fun w => w ∉ stop_words name) with
    | nil => simp [hfil]
    | cons a as => simp [hfil]
  · simp only [extract_conversation_topic]
    rw [show (pySplit "hello hi you know").map stripPunct = ["hello", "hi", "you", "know"] from
      by decide]
    have h1 : ("hello" : String) ∈ stop_words name := by simp [stop_words]
    have h2 : ("hi" : String) ∈ stop_words name := by simp [stop_words]
    have h3 : ("you" : String) ∈ stop_words name := by simp [stop_words]
    have h4 : ("know" : String) ∈ stop_words name := by simp [stop_words]
    simp [List.filter_cons, h1, h2, h3, h4]

/-- Claim C5 fails as stated: the code's strip keeps underscores, which the
claim's "alphanumeric or whitespace" wording would remove, so on
"discuss my_hobby" the code's topic is "my_hobby" while the claimed rule
yields "myhobby". -/
theorem c5_counterexample :
    extract_conversation_topic "Henry" ["discuss my_hobby"] = .ok "my_hobby" ∧
    topicExtractorClaim "Henry" "discuss my_hobby" = "myhobby" ∧
    ("my_hobby" : String) ≠ "myhobby" :=
  ⟨by decide, by decide, by decide⟩

/-- Claim C6 (amended): the bot word count sums, over the assistant messages
with the start prompt prepended and the goodbye appended, the token counts
obtained by replacing newlines with spaces, stripping every character that is
not a word character (alphanumeric or underscore) or whitespace, and
splitting on whitespace; the entry "Hi!\nHow are you?" contributes 4. -/
theorem c6_bot_word_count (c : Chatbot) (s : ConversationStatistics)
    (h : get_conversation_statistics c = .ok s) :
    s.bot_word_count = botWordCountAmendedSpec c ∧
    (pySplit (stripPunct (replaceNewlines "Hi!\nHow are you?"))).length = 4 := by
  refine ⟨?_, by decide⟩
  obtain ⟨-, -, hw, -, -, -⟩ := get_stats_spec c s h
  rw [hw, botWordCountAmendedSpec]
  simp [List.length_flatten, List.map_map, Function.comp_def]

/-- Claim C6 fails as stated: on a chatbot whose only assistant message is
"a _ b" the code counts the lone underscore as a token (3 tokens), while the
claimed alphanumeric-or-whitespace strip would erase it (2 tokens). -/
theorem c6_counterexample :
    (get_conversation_statistics uBot).map ConversationStatistics.bot_word_count = .ok 3 ∧
    botWordCountClaim uBot = 2 ∧ (3 : Nat) ≠ 2 :=
  ⟨by decide, by decide, by decide⟩

/-- Witness for claim C6's theorem at the concrete chatbot `wBot`. -/
theorem c6_witness :
    get_conversation_statistics wBot = .ok wStats ∧
    (wStats.bot_word_count = botWordCountAmendedSpec wBot ∧
      (pySplit (stripPunct (replaceNewlines "Hi!\nHow are you?"))).length = 4) :=
  ⟨by decide, c6_bot_word_count wBot wStats (by decide)⟩

/-- On a persona whose name is not the cue text "EXIT", the cue survives the
stop-word filter, so topic extraction over the synthetic list returns it. -/
theorem topic_of_exit_cue (name : String) (hn : name ≠ "EXIT") :
    extract_conversation_topic name ["EXIT"] = .ok "EXIT" := by
  have hmem : ("EXIT" : String) ∉ stop_words name := by
    intro hmem
    simp [stop_words] at hmem
    exact hn hmem.symm
  simp only [extract_conversation_topic]
  rw [show (pySplit "EXIT").map stripPunct = ["EXIT"] from by decide]
  simp [List.filter_cons, hmem, joinSpace]

/-- Claim C10 (amended): for every session terminated with zero user turns —
whatever the cue and persona name — the synthetic user-message list is exactly
[exit_cue] and the first-entry access in topic extraction is in bounds (never
an `IndexError`); whenever the summary is produced, its topic is extracted
from the exit cue text itself and its user character count is the cue's
length; and with the default cue the topic is "EXIT" provided the persona's
name is not itself "EXIT", as holds for both program personas. -/
theorem c10_zero_turn_session (c : Chatbot)
    (hu : ∀ m ∈ c.messages, m.role ≠ Role.user) :
    sessionUserMessages c = [c.exit_cue] ∧
    (extract_conversation_topic c.name (sessionUserMessages c)).isOk = true ∧
    (∀ s, get_conversation_statistics c = .ok s →
      extract_conversation_topic c.name [c.exit_cue] = .ok s.subject ∧
      s.user_char_count = c.exit_cue.length) ∧
    (c.exit_cue = "EXIT" → c.name ≠ "EXIT" →
      (get_conversation_statistics c).map ConversationStatistics.subject = .ok "EXIT") := by
  have hfil : c.messages.filter (fun m => m.role = Role.user) = [] := by
    rw [List.filter_eq_nil_iff]
    intro m hm
    simp [hu m hm]
  have hum : sessionUserMessages c = [c.exit_cue] := by
    rw [sessionUserMessages, hfil]
    rfl
  refine ⟨hum, ?_, ?_, ?_⟩
  · rw [hum]
    simp only [extract_conversation_topic]
    split <;> rfl
  · intro s hs
    obtain ⟨-, hcc, -, -, ht, -⟩ := get_stats_spec c s hs
    rw [hum] at ht hcc
    refine ⟨ht, ?_⟩
    simpa using hcc
  · intro hcue hn
    have hname : extract_user_name ["EXIT"] = .ok "UNKNOWN" := by decide
    simp [get_conversation_statistics, hum, hcue, topic_of_exit_cue c.name hn, hname,
      Bind.bind, Except.bind, Except.map]

/-- Claim C10 fails as stated: a zero-turn session whose persona name equals
the default cue "EXIT" filters the cue out as a stop word, so the topic is
"UNKNOWN", not "EXIT". -/
theorem c10_counterexample :
    (∀ m ∈ exitBot.messages, m.role ≠ Role.user) ∧
    exitBot.exit_cue = "EXIT" ∧
    (get_conversation_statistics exitBot).map ConversationStatistics.subject = .ok "UNKNOWN" :=
  ⟨by decide, rfl, by decide⟩

/-- Witness for claim C10's theorem at the concrete chatbot `wBot`,
exercising every conjunct, the summary-dependent ones at `wStats`. -/
theorem c10_witness :
    (∀ m ∈ wBot.messages, m.role ≠ Role.user) ∧
    sessionUserMessages wBot = [wBot.exit_cue] ∧
    (extract_conversation_topic wBot.name (sessionUserMessages wBot)).isOk = true ∧
    (extract_conversation_topic wBot.name [wBot.exit_cue] = .ok wStats.subject ∧
      wStats.user_char_count = wBot.exit_cue.length) ∧
    (get_conversation_statistics wBot).map ConversationStatistics.subject = .ok "EXIT" :=
  ⟨by decide,
    (c10_zero_turn_session wBot (by decide)).1,
    (c10_zero_turn_session wBot (by decide)).2.1,
    (c10_zero_turn_session wBot (by decide)).2.2.1 wStats (by decide),
    (c10_zero_turn_session wBot (by decide)).2.2.2 rfl (by decide)⟩

end ChatApp
